import Mathlib

/-!
Verification of the UniPro TX DMA engine
(`nuttx/arch/arm/src/tsb/tsb_unipro_tx_dma.c`).

The C source is shallowly embedded: pure computations become Lean
functions, mutation of driver state becomes explicit state passing,
calls into the DMA / ATABL device collaborators are abstracted by an
oracle record carrying their return values, and externally visible
actions (caller callbacks, semaphore posts, hardware resets, device
calls) are collected in an effect trace.  Machine pointers are modelled
as natural-number addresses; pointer arithmetic becomes Nat addition.
-/

set_option autoImplicit false

namespace UniproTxDma

/-!  ### Error codes (errno values as used by the NuttX source) -/

def OK : Int := 0

def EINVAL : Int := 22

def EPIPE : Int := 32

def ENOMEM : Int := 12

def ENODEV : Int := 19

def ENOSPC : Int := 28

def ECONNRESET : Int := 104

/-- Modelled from the spec: `DEVICE_DMA_ERROR_DMA_FAILED`, the DMA-failure
code returned upward by the Error branch of the event handler.  Its
declaring header `nuttx/device_dma.h` is not under `src/`; the spec only
requires it to be a failure code distinct from `OK`, which is all that is
used below. -/
def DEVICE_DMA_ERROR_DMA_FAILED : Int := 4

/-!  ### Data model (`struct dma_channel`, `struct unipro_xfer_descriptor`) -/

/-- `struct dma_channel` (tsb_unipro_tx_dma.c:64-69).  The hardware channel
handle `chan` and request handle `req` are opaque to the driver logic and
are dropped; `cportid` (`0xFFFF` = unmapped sentinel) and the saved
watermark survive as data. -/
structure dma_channel where
  cportid : Nat
  saved_tx_water_mark : Nat
deriving DecidableEq

/-- `struct unipro_xfer_descriptor` (tsb_unipro_tx_dma.c:71-85).  `cport`
is represented by the cport id it resolves to, `data` by a numeric buffer
address, the caller callback by a flag recording whether one is registered
(`callback != NULL`); `priv` is opaque and dropped.  `channel` embeds the
bound channel record (`NULL` = `none`), `dma_op` the in-flight hardware
operation handle. -/
structure unipro_xfer_descriptor where
  cportid : Nat
  data : Nat
  len : Nat
  hasCallback : Bool
  data_offset : Nat
  channel : Option dma_channel
  dma_op : Option Nat
deriving DecidableEq

/-- The fields of `struct cport` that tsb_unipro_tx_dma.c reads or writes:
the id, the TX descriptor queue (head of the list at the head of the
`List`), the pending-reset flag, whether a reset-completion callback is
registered, and the TX buffer base address. -/
structure cport where
  cportid : Nat
  tx_fifo : List unipro_xfer_descriptor
  pending_reset : Bool
  reset_completion_cb : Bool
  tx_buf : Nat
deriving DecidableEq

/-- Externally visible actions performed by the driver, in program order. -/
inductive Effect where
  | callback (status : Int) (data : Nat)
  | dma_dequeue (op : Nat)
  | cport_hw_reset (cportid : Nat)
  | reset_completion (cportid : Nat)
  | set_eom (cportid : Nat)
  | dma_op_free (op : Nat)
  | atabl_deactivate
  | atabl_disconnect
  | atabl_connect (cportid : Nat)
  | atabl_activate
  | atabl_transfer_completed
  | sem_post
deriving DecidableEq

/-- True exactly on caller-callback effects. -/
def Effect.isCallback : Effect → Bool
  | Effect.callback _ _ => true
  | _ => false

/-- True exactly on reset-completion-callback effects. -/
def Effect.isResetCompletion : Effect → Bool
  | Effect.reset_completion _ => true
  | _ => false

/-- True exactly on dispatcher-semaphore posts (`sem_post(&worker.tx_fifo_lock)`). -/
def Effect.isSemPost : Effect → Bool
  | Effect.sem_post => true
  | _ => false

/-- The statuses delivered to the caller callback, in firing order. -/
def callback_statuses (l : List Effect) : List Int :=
  l.filterMap fun e =>
    match e with
    | Effect.callback st _ => some st
    | _ => none

/-!  ### Channel picker -/

/-- `pick_dma_channel` (tsb_unipro_tx_dma.c:114-131), reduced to the index
computation: channel 0 is reserved for cport 0; any other cport maps to
`((cportid - 1) % (max_channel - 1)) + 1`. -/
def pick_dma_channel (max_channel : Nat) (cportid : Nat) : Nat :=
  if cportid = 0 then 0 else (cportid - 1) % (max_channel - 1) + 1

/-- Claim C2: with at least 2 allocated channels, `pick_dma_channel` maps
endpoint 0 to channel 0 and endpoint `e ≠ 0` to
`((e - 1) mod (channel_count - 1)) + 1`; consequently channel 0 is never
assigned to an endpoint other than 0 and the returned index is always
below the channel count. -/
theorem pick_dma_channel_spec (mc e : Nat) (h : 2 ≤ mc) :
    (e = 0 → pick_dma_channel mc e = 0) ∧
    (e ≠ 0 → pick_dma_channel mc e = (e - 1) % (mc - 1) + 1) ∧
    (e ≠ 0 → pick_dma_channel mc e ≠ 0) ∧
    pick_dma_channel mc e < mc := by
  unfold pick_dma_channel
  by_cases he : e = 0
  · simp [he]
    omega
  · simp [he]
    have hpos : 0 < mc - 1 := by omega
    have := Nat.mod_lt (e - 1) hpos
    omega

/-- Claim C2 witness: the mapping evaluated with 4 channels at endpoints 0
and 5. -/
theorem pick_dma_channel_spec_witness :
    ((5 = 0 → pick_dma_channel 4 5 = 0) ∧
     (5 ≠ 0 → pick_dma_channel 4 5 = (5 - 1) % (4 - 1) + 1) ∧
     (5 ≠ 0 → pick_dma_channel 4 5 ≠ 0) ∧
     pick_dma_channel 4 5 < 4) :=
  pick_dma_channel_spec 4 5 (by decide)

/-!  ### Asynchronous send (`unipro_send_async_dma`) -/

/-- `unipro_send_async_dma` (tsb_unipro_tx_dma.c:480-518).  `lookup` is the
result of `cport_handle(cportid)` (`NULL` = `none`), `alloc_ok` whether
`zalloc` succeeds.  Returns the C return value, the updated cport (when one
resolved) and the effect trace.  The new descriptor is appended at the tail
of `tx_fifo` (`list_add` appends before the list head). -/
def unipro_send_async_dma (lookup : Option cport) (alloc_ok : Bool)
    (buf len : Nat) (hasCb : Bool) :
    Int × Option cport × List Effect :=
  match lookup with
  | none => (-EINVAL, none, [])
  | some c =>
    if c.pending_reset then (-EPIPE, some c, [])
    else if alloc_ok = false then (-ENOMEM, some c, [])
    else
      let desc : unipro_xfer_descriptor :=
        { cportid := c.cportid, data := buf, len := len, hasCallback := hasCb,
          data_offset := 0, channel := none, dma_op := none }
      (0, some { c with tx_fifo := c.tx_fifo ++ [desc] }, [Effect.sem_post])

/-- Claim C8: `async_send` returns `-EINVAL` when the endpoint id does not
resolve, `-EPIPE` when the endpoint has a pending reset and `-ENOMEM` when
descriptor allocation fails; in every error case the endpoint queue is
unchanged, no descriptor is enqueued and no callback effect is emitted;
on success it returns 0 and appends exactly one fresh descriptor at the
tail of the queue. -/
theorem send_async_spec (c : cport) (alloc_ok : Bool) (buf len : Nat)
    (hasCb : Bool) :
    (unipro_send_async_dma none alloc_ok buf len hasCb = (-EINVAL, none, [])) ∧
    (c.pending_reset = true →
      unipro_send_async_dma (some c) alloc_ok buf len hasCb =
        (-EPIPE, some c, [])) ∧
    (c.pending_reset = false → alloc_ok = false →
      unipro_send_async_dma (some c) alloc_ok buf len hasCb =
        (-ENOMEM, some c, [])) ∧
    (c.pending_reset = false → alloc_ok = true →
      unipro_send_async_dma (some c) alloc_ok buf len hasCb =
        (0, some { c with tx_fifo := c.tx_fifo ++
            [{ cportid := c.cportid, data := buf, len := len,
               hasCallback := hasCb, data_offset := 0, channel := none,
               dma_op := none }] }, [Effect.sem_post])) ∧
    (∀ r cp effs, unipro_send_async_dma (some c) alloc_ok buf len hasCb =
        (r, cp, effs) → effs.countP Effect.isCallback = 0) := by
  unfold unipro_send_async_dma
  refine ⟨rfl, ?_, ?_, ?_, ?_⟩
  · intro h; simp [h]
  · intro h1 h2; simp [h1, h2]
  · intro h1 h2; simp [h1, h2]
  · intro r cp effs h
    by_cases h1 : c.pending_reset <;> by_cases h2 : alloc_ok <;>
      simp [h1, h2] at h
    all_goals obtain ⟨-, -, h3⟩ := h
    all_goals subst h3
    all_goals decide

/-- Claim C8 witness: the four cases evaluated on a concrete cport with an
empty queue (id 3, no pending reset) and a concrete send of 16 bytes at
buffer address 100. -/
theorem send_async_spec_witness :
    (unipro_send_async_dma none true 100 16 true = (-EINVAL, none, [])) ∧
    (({ cportid := 3, tx_fifo := [], pending_reset := false,
        reset_completion_cb := false, tx_buf := 0 } : cport).pending_reset
          = false →
      (true : Bool) = true →
      unipro_send_async_dma
        (some { cportid := 3, tx_fifo := [], pending_reset := false,
                reset_completion_cb := false, tx_buf := 0 }) true 100 16 true =
        (0, some { cportid := 3,
                   tx_fifo := [{ cportid := 3, data := 100, len := 16,
                                 hasCallback := true, data_offset := 0,
                                 channel := none, dma_op := none }],
                   pending_reset := false, reset_completion_cb := false,
                   tx_buf := 0 }, [Effect.sem_post])) := by
  have h := send_async_spec
      { cportid := 3, tx_fifo := [], pending_reset := false,
        reset_completion_cb := false, tx_buf := 0 } true 100 16 true
  exact ⟨h.1, fun h1 h2 => by simpa using h.2.2.2.1 h1 h2⟩

/-!  ### Endpoint flush (`unipro_flush_cport`) -/

/-- The `list_reverse_foreach` walk of `unipro_flush_cport`
(tsb_unipro_tx_dma.c:144-167).  The queue is walked tail-to-head, so for
`d :: rest` the effects of `rest` come first and the effect of `d` last.
A descriptor not bound to a channel is removed, its callback (when
registered) invoked with `-ECONNRESET`, and it is freed; a channel-bound
descriptor stays queued and, when it carries an in-flight operation, a
`device_dma_dequeue` is issued for it.  Returns the surviving queue and
the effect trace. -/
def flush_walk : List unipro_xfer_descriptor →
    List unipro_xfer_descriptor × List Effect
  | [] => ([], [])
  | d :: rest =>
    let r := flush_walk rest
    if d.channel = none then
      (r.1, r.2 ++ (if d.hasCallback then
                      [Effect.callback (-ECONNRESET) d.data] else []))
    else
      (d :: r.1, r.2 ++ (match d.dma_op with
        | some op => [Effect.dma_dequeue op]
        | none => []))

/-- `unipro_flush_cport` (tsb_unipro_tx_dma.c:133-178): walk the queue
(skipped when already empty), then reset the cport hardware state, clear
the pending-reset flag, invoke the reset-completion callback when one is
registered, and clear its registration. -/
def unipro_flush_cport (c : cport) : cport × List Effect :=
  let walked := if c.tx_fifo = [] then (([] : List unipro_xfer_descriptor),
                                        ([] : List Effect))
                else flush_walk c.tx_fifo
  ({ c with tx_fifo := walked.1, pending_reset := false,
            reset_completion_cb := false },
   walked.2 ++ [Effect.cport_hw_reset c.cportid] ++
     (if c.reset_completion_cb then [Effect.reset_completion c.cportid]
      else []))

/-- On a queue of descriptors none of which is channel-bound and all of
which carry a callback, the walk empties the queue and fires exactly the
reset-status callbacks, tail-to-head. -/
theorem flush_walk_all_unbound (l : List unipro_xfer_descriptor)
    (hall : ∀ d ∈ l, d.channel = none ∧ d.hasCallback = true) :
    flush_walk l =
      ([], l.reverse.map fun d => Effect.callback (-ECONNRESET) d.data) := by
  induction l with
  | nil => rfl
  | cons d rest ih =>
    have hd := hall d (List.mem_cons_self d rest)
    have hrest : ∀ x ∈ rest, x.channel = none ∧ x.hasCallback = true :=
      fun x hx => hall x (List.mem_cons_of_mem d hx)
    simp [flush_walk, ih hrest, hd.1, hd.2]

/-- Claim C3: flushing an endpoint whose queue holds only descriptors not
bound to any channel (each with a registered callback) invokes each
callback exactly once with the connection-reset status, leaves the queue
empty, clears the pending-reset flag, invokes the reset-completion
callback exactly once when registered and clears its registration, so a
second flush fires no reset-completion callback. -/
theorem flush_cport_spec (c : cport)
    (hall : ∀ d ∈ c.tx_fifo, d.channel = none ∧ d.hasCallback = true) :
    (unipro_flush_cport c).1.tx_fifo = [] ∧
    (unipro_flush_cport c).1.pending_reset = false ∧
    (unipro_flush_cport c).1.reset_completion_cb = false ∧
    (unipro_flush_cport c).2 =
      (c.tx_fifo.reverse.map fun d => Effect.callback (-ECONNRESET) d.data) ++
      [Effect.cport_hw_reset c.cportid] ++
      (if c.reset_completion_cb then [Effect.reset_completion c.cportid]
       else []) ∧
    ((unipro_flush_cport c).2.countP Effect.isCallback =
      c.tx_fifo.length) ∧
    ((unipro_flush_cport c).2.countP Effect.isResetCompletion =
      if c.reset_completion_cb then 1 else 0) ∧
    ((unipro_flush_cport (unipro_flush_cport c).1).2.countP
      Effect.isResetCompletion = 0) := by
  have hwalk : (if c.tx_fifo = [] then (([] : List unipro_xfer_descriptor),
                                        ([] : List Effect))
                else flush_walk c.tx_fifo) =
      ([], c.tx_fifo.reverse.map fun d =>
             Effect.callback (-ECONNRESET) d.data) := by
    by_cases hnil : c.tx_fifo = []
    · simp [hnil]
    · simp [hnil, flush_walk_all_unbound c.tx_fifo hall]
  refine ⟨?_, ?_, ?_, ?_, ?_, ?_, ?_⟩
  · simp [unipro_flush_cport, hwalk]
  · simp [unipro_flush_cport]
  · simp [unipro_flush_cport]
  · simp [unipro_flush_cport, hwalk]
  · by_cases hcb : c.reset_completion_cb <;>
      simp [unipro_flush_cport, hwalk, hcb, List.countP_append,
            List.countP_map, List.countP_cons, Function.comp_def,
            Effect.isCallback, List.countP_true]
  · by_cases hcb : c.reset_completion_cb <;>
      simp [unipro_flush_cport, hwalk, hcb, List.countP_append,
            List.countP_map, List.countP_cons, Function.comp_def,
            Effect.isResetCompletion, List.countP_false]
  · simp [unipro_flush_cport, hwalk, List.countP_append,
          List.countP, List.countP.go, Effect.isResetCompletion]

/-- Claim C3 witness: flushing cport 2 whose queue holds two unbound
descriptors and whose reset-completion callback is registered. -/
theorem flush_cport_spec_witness :
    ((unipro_flush_cport
        { cportid := 2,
          tx_fifo := [{ cportid := 2, data := 10, len := 4,
                        hasCallback := true, data_offset := 0,
                        channel := none, dma_op := none },
                      { cportid := 2, data := 20, len := 8,
                        hasCallback := true, data_offset := 0,
                        channel := none, dma_op := none }],
          pending_reset := true, reset_completion_cb := true,
          tx_buf := 0 }).2.countP Effect.isCallback = 2) := by
  have h := flush_cport_spec
      { cportid := 2,
        tx_fifo := [{ cportid := 2, data := 10, len := 4,
                      hasCallback := true, data_offset := 0,
                      channel := none, dma_op := none },
                    { cportid := 2, data := 20, len := 8,
                      hasCallback := true, data_offset := 0,
                      channel := none, dma_op := none }],
        pending_reset := true, reset_completion_cb := true, tx_buf := 0 }
      (by decide)
  exact h.2.2.2.2.1

/-!  ### Hardware event handler (`unipro_dma_tx_callback`) -/

/-- The five DMA callback event bits
(`DEVICE_DMA_CALLBACK_EVENT_{START,COMPLETE,ERROR,RECOVERED,DEQUEUED}`);
the C handler tests them in this fixed order. -/
structure dma_event where
  start : Bool
  complete : Bool
  error : Bool
  recovered : Bool
  dequeued : Bool
deriving DecidableEq

/-- Return values and status reads of the DMA / ATABL device calls made by
one handler invocation (the collaborators are assumed correct and
abstracted by their observable results).  `0` means `OK`. -/
structure DeviceOracle where
  start_req_is_activated : Bool
  connect_result : Int
  activate_result : Int
  op_free_result : Int
  error_req_is_activated : Bool
deriving DecidableEq

/-- The driver state a handler invocation can read or write: the
descriptor the operation belongs to (with its embedded channel binding),
whether that descriptor is still on its cport queue and whether it has
been freed, and the per-cport `TX_BUFFER_SPACE_OFFSET` watermark
registers. -/
structure HandlerState where
  desc : unipro_xfer_descriptor
  desc_queued : Bool
  desc_freed : Bool
  regs : Nat → Nat

/-- `unipro_write(REG_TX_BUFFER_SPACE_OFFSET_REG(cportid), v)` as a
register-file update. -/
def unipro_write (regs : Nat → Nat) (cportid v : Nat) : Nat → Nat :=
  fun i => if i = cportid then v else regs i

/-- Outcome of one event branch: updated state, effects emitted by the
branch, current `retval`, and whether the branch executed a C `return`
(cutting the remaining branches short). -/
def BranchOut : Type := HandlerState × List Effect × Int × Bool

/-- START branch (tsb_unipro_tx_dma.c:239-276): deactivate an active
request, rebind the flow-control request to the descriptor cport when the
channel is bound elsewhere (disconnecting a stale binding first and
marking the channel unmapped meanwhile), then activate; a connect or
activate failure returns its error.  `none` models the null dereference of
`desc->channel`. -/
def tx_cb_start (o : DeviceOracle) (s : HandlerState) : Option BranchOut :=
  match s.desc.channel with
  | none => none
  | some ch =>
    let req_activated : Bool := ch.cportid ≠ 0xFFFF ∧ o.start_req_is_activated
    let e1 : List Effect := if req_activated then [Effect.atabl_deactivate]
                            else []
    if ch.cportid ≠ s.desc.cportid then
      let ch1 := if ch.cportid ≠ 0xFFFF then { ch with cportid := 0xFFFF }
                 else ch
      let e2 : List Effect := if ch.cportid ≠ 0xFFFF then
                                [Effect.atabl_disconnect] else []
      let s1 := { s with desc := { s.desc with channel := some ch1 } }
      let e3 := e1 ++ e2 ++ [Effect.atabl_connect s.desc.cportid]
      if o.connect_result ≠ OK then some (s1, e3, o.connect_result, true)
      else if o.activate_result ≠ OK then
        some (s1, e3 ++ [Effect.atabl_activate], o.activate_result, true)
      else
        let ch2 := { ch1 with cportid := s.desc.cportid }
        some ({ s1 with desc := { s1.desc with channel := some ch2 } },
              e3 ++ [Effect.atabl_activate], OK, false)
    else
      if o.activate_result ≠ OK then
        some (s, e1 ++ [Effect.atabl_activate], o.activate_result, true)
      else
        let ch2 := { ch with cportid := s.desc.cportid }
        some ({ s with desc := { s.desc with channel := some ch2 } },
              e1 ++ [Effect.atabl_activate], OK, false)

/-- COMPLETE branch (tsb_unipro_tx_dma.c:278-313).  Fully transferred
(`data_offset >= len`): set the end-of-message flag, free the operation,
invoke the caller callback with status 0 when registered, mark the
flow-control transfer complete, remove and free the descriptor.  Not yet
fully transferred: clear the channel binding and free only the operation.
Both paths fall through `event_complete_finally` and post the dispatcher
semaphore exactly once; a failed operation free then returns its error. -/
def tx_cb_complete (o : DeviceOracle) (op : Nat) (s : HandlerState) :
    Option BranchOut :=
  if s.desc.len ≤ s.desc.data_offset then
    match s.desc.channel with
    | none => none
    | some _ =>
      some ({ s with desc_queued := false, desc_freed := true },
            [Effect.set_eom s.desc.cportid, Effect.dma_op_free op] ++
              (if s.desc.hasCallback then [Effect.callback 0 s.desc.data]
               else []) ++
              [Effect.atabl_transfer_completed, Effect.sem_post],
            o.op_free_result, o.op_free_result ≠ OK)
  else
    some ({ s with desc := { s.desc with channel := none } },
          [Effect.dma_op_free op, Effect.sem_post],
          o.op_free_result, o.op_free_result ≠ OK)

/-- ERROR branch (tsb_unipro_tx_dma.c:318-337): when the flow-control
request is still activated, save the watermark register of the cport bound
to the channel into the channel, write 0 to that register and return
`DEVICE_DMA_ERROR_DMA_FAILED`; otherwise a no-op returning `OK`.  Both
sides execute a C `return`. -/
def tx_cb_error (o : DeviceOracle) (s : HandlerState) : Option BranchOut :=
  match s.desc.channel with
  | none => none
  | some ch =>
    if o.error_req_is_activated then
      let ch1 := { ch with saved_tx_water_mark := s.regs ch.cportid }
      some ({ s with
                desc := { s.desc with channel := some ch1 },
                regs := unipro_write s.regs ch.cportid 0 },
            [], DEVICE_DMA_ERROR_DMA_FAILED, true)
    else
      some (s, [], OK, true)

/-- RECOVERED branch (tsb_unipro_tx_dma.c:339-360): after a bounded poll
of the request-activated status (pure reads, no driver-state change),
restore the saved watermark to the register of the cport bound to the
channel, mark the flow-control transfer complete and return `OK`. -/
def tx_cb_recovered (s : HandlerState) : Option BranchOut :=
  match s.desc.channel with
  | none => none
  | some ch =>
    some ({ s with regs := unipro_write s.regs ch.cportid
                             ch.saved_tx_water_mark },
          [Effect.atabl_transfer_completed], OK, true)

/-- DEQUEUED branch (tsb_unipro_tx_dma.c:362-372): free the operation,
invoke the caller callback with status 0 when registered, remove and free
the descriptor, post the dispatcher semaphore; `retval` is left as it was
and the branch falls through. -/
def tx_cb_dequeued (op : Nat) (r : Int) (s : HandlerState) : BranchOut :=
  ({ s with desc_queued := false, desc_freed := true },
   [Effect.dma_op_free op] ++
     (if s.desc.hasCallback then [Effect.callback 0 s.desc.data] else []) ++
     [Effect.sem_post],
   r, false)

/-- `unipro_dma_tx_callback` (tsb_unipro_tx_dma.c:233-375): the event bits
are tested in the order START, COMPLETE, ERROR, RECOVERED, DEQUEUED; a
branch that executes a C `return` cuts the remaining branches short.
`none` models a null `desc->channel` dereference.  Returns the final
state, the concatenated effect trace and the handler return value. -/
def unipro_dma_tx_callback (o : DeviceOracle) (ev : dma_event) (op : Nat)
    (s0 : HandlerState) : Option (HandlerState × List Effect × Int) :=
  match (if ev.start then tx_cb_start o s0 else some (s0, [], OK, false)) with
  | none => none
  | some (s1, e1, r1, early1) =>
    if early1 then some (s1, e1, r1) else
    match (if ev.complete then tx_cb_complete o op s1
           else some (s1, [], r1, false)) with
    | none => none
    | some (s2, e2, r2, early2) =>
      if early2 then some (s2, e1 ++ e2, r2) else
      match (if ev.error then tx_cb_error o s2
             else some (s2, [], r2, false)) with
      | none => none
      | some (s3, e3, r3, early3) =>
        if early3 then some (s3, e1 ++ e2 ++ e3, r3) else
        match (if ev.recovered then tx_cb_recovered s3
               else some (s3, [], r3, false)) with
        | none => none
        | some (s4, e4, r4, early4) =>
          if early4 then some (s4, e1 ++ e2 ++ e3 ++ e4, r4) else
          match (if ev.dequeued then tx_cb_dequeued op r4 s4
                 else (s4, [], r4, false)) with
          | (s5, e5, r5, _) => some (s5, e1 ++ e2 ++ e3 ++ e4 ++ e5, r5)

/-- Event value with only the COMPLETE bit set. -/
def evComplete : dma_event :=
  { start := false, complete := true, error := false, recovered := false,
    dequeued := false }

/-- Event value with only the ERROR bit set. -/
def evError : dma_event :=
  { start := false, complete := false, error := true, recovered := false,
    dequeued := false }

/-- Event value with only the RECOVERED bit set. -/
def evRecovered : dma_event :=
  { start := false, complete := false, error := false, recovered := true,
    dequeued := false }

/-- Helper: the handler on a COMPLETE-only event for a fully transferred
descriptor (callback registered), in closed form. -/
theorem handler_complete_full_eq (o : DeviceOracle) (op : Nat)
    (s : HandlerState) (ch : dma_channel) (hch : s.desc.channel = some ch)
    (hcb : s.desc.hasCallback = true)
    (hle : s.desc.len ≤ s.desc.data_offset) :
    unipro_dma_tx_callback o evComplete op s =
      some ({ s with desc_queued := false, desc_freed := true },
            [Effect.set_eom s.desc.cportid, Effect.dma_op_free op,
             Effect.callback 0 s.desc.data,
             Effect.atabl_transfer_completed, Effect.sem_post],
            o.op_free_result) := by
  by_cases hr : o.op_free_result = OK <;>
    simp [unipro_dma_tx_callback, evComplete, tx_cb_complete, hle, hch,
          hcb, hr]

/-- Helper: the handler on a COMPLETE-only event for a partially
transferred descriptor, in closed form. -/
theorem handler_complete_partial_eq (o : DeviceOracle) (op : Nat)
    (s : HandlerState) (hlt : s.desc.data_offset < s.desc.len) :
    unipro_dma_tx_callback o evComplete op s =
      some ({ s with desc := { s.desc with channel := none } },
            [Effect.dma_op_free op, Effect.sem_post],
            o.op_free_result) := by
  have hle : ¬ s.desc.len ≤ s.desc.data_offset := by omega
  by_cases hr : o.op_free_result = OK <;>
    simp [unipro_dma_tx_callback, evComplete, tx_cb_complete, hle, hr]

/-- Helper: the handler on an ERROR-only event with the flow-control
request activated, in closed form. -/
theorem handler_error_eq (o : DeviceOracle) (op : Nat) (s : HandlerState)
    (ch : dma_channel) (hch : s.desc.channel = some ch)
    (hact : o.error_req_is_activated = true) :
    unipro_dma_tx_callback o evError op s =
      some ({ s with
                desc := { s.desc with channel := some { ch with saved_tx_water_mark := s.regs ch.cportid } },
                regs := unipro_write s.regs ch.cportid 0 },
            [], DEVICE_DMA_ERROR_DMA_FAILED) := by
  simp [unipro_dma_tx_callback, evError, tx_cb_error, hch, hact]

/-- Helper: the handler on an ERROR-only event with the flow-control
request not activated is a no-op returning `OK`. -/
theorem handler_error_noop_eq (o : DeviceOracle) (op : Nat)
    (s : HandlerState) (ch : dma_channel) (hch : s.desc.channel = some ch)
    (hact : o.error_req_is_activated = false) :
    unipro_dma_tx_callback o evError op s = some (s, [], OK) := by
  simp [unipro_dma_tx_callback, evError, tx_cb_error, hch, hact]

/-- Helper: the handler on a RECOVERED-only event, in closed form. -/
theorem handler_recovered_eq (o : DeviceOracle) (op : Nat)
    (s : HandlerState) (ch : dma_channel)
    (hch : s.desc.channel = some ch) :
    unipro_dma_tx_callback o evRecovered op s =
      some ({ s with regs := unipro_write s.regs ch.cportid
                       ch.saved_tx_water_mark },
            [Effect.atabl_transfer_completed], OK) := by
  simp [unipro_dma_tx_callback, evRecovered, tx_cb_recovered, hch]

/-- Claim C4: for a COMPLETE event on a channel-bound descriptor with a
registered callback: when the offset has reached the declared length the
handler sets the end-of-message flag, frees the hardware operation,
invokes the callback exactly once with status 0, marks the flow-control
transfer complete, and removes and frees the descriptor; otherwise it
clears the channel binding and frees only the operation, leaving the
descriptor queued; in either branch, whether the operation free succeeds
or fails, the dispatcher semaphore is posted exactly once. -/
theorem complete_event_spec (o : DeviceOracle) (op : Nat) (s : HandlerState)
    (ch : dma_channel) (hch : s.desc.channel = some ch)
    (hcb : s.desc.hasCallback = true) :
    (s.desc.len ≤ s.desc.data_offset →
      unipro_dma_tx_callback o evComplete op s =
        some ({ s with desc_queued := false, desc_freed := true },
              [Effect.set_eom s.desc.cportid, Effect.dma_op_free op,
               Effect.callback 0 s.desc.data,
               Effect.atabl_transfer_completed, Effect.sem_post],
              o.op_free_result)) ∧
    (s.desc.data_offset < s.desc.len →
      unipro_dma_tx_callback o evComplete op s =
        some ({ s with desc := { s.desc with channel := none } },
              [Effect.dma_op_free op, Effect.sem_post],
              o.op_free_result)) ∧
    (∀ s1 effs r,
      unipro_dma_tx_callback o evComplete op s = some (s1, effs, r) →
        effs.countP Effect.isSemPost = 1 ∧
        effs.countP Effect.isCallback =
          (if s.desc.len ≤ s.desc.data_offset then 1 else 0)) := by
  have hfull := handler_complete_full_eq o op s ch hch hcb
  have hpart := handler_complete_partial_eq o op s
  refine ⟨hfull, hpart, ?_⟩
  intro s1 effs r h
  by_cases hle : s.desc.len ≤ s.desc.data_offset
  · rw [hfull hle] at h
    have heffs : effs = [Effect.set_eom s.desc.cportid, Effect.dma_op_free op,
        Effect.callback 0 s.desc.data, Effect.atabl_transfer_completed,
        Effect.sem_post] := by
      injection h with h1
      exact (congrArg (fun t => t.2.1) h1).symm
    subst heffs
    simp [hle, List.countP, List.countP.go, Effect.isSemPost,
          Effect.isCallback]
  · have hlt : s.desc.data_offset < s.desc.len := by omega
    rw [hpart hlt] at h
    have heffs : effs = [Effect.dma_op_free op, Effect.sem_post] := by
      injection h with h1
      exact (congrArg (fun t => t.2.1) h1).symm
    subst heffs
    simp [hle, List.countP, List.countP.go, Effect.isSemPost,
          Effect.isCallback]

/-- Claim C4 witness: a COMPLETE event for a fully transferred 4-byte
descriptor on cport 1, with the operation free succeeding. -/
theorem complete_event_spec_witness :
    unipro_dma_tx_callback
      { start_req_is_activated := false, connect_result := 0,
        activate_result := 0, op_free_result := 0,
        error_req_is_activated := false }
      evComplete 5
      { desc := { cportid := 1, data := 100, len := 4, hasCallback := true,
                  data_offset := 4, channel := some ⟨1, 9⟩, dma_op := some 5 },
        desc_queued := true, desc_freed := false, regs := fun _ => 7 } =
      some ({ desc := { cportid := 1, data := 100, len := 4,
                        hasCallback := true, data_offset := 4,
                        channel := some ⟨1, 9⟩, dma_op := some 5 },
              desc_queued := false, desc_freed := true, regs := fun _ => 7 },
            [Effect.set_eom 1, Effect.dma_op_free 5, Effect.callback 0 100,
             Effect.atabl_transfer_completed, Effect.sem_post], 0) :=
  (complete_event_spec _ 5 _ ⟨1, 9⟩ rfl rfl).1 (by decide)

/-- Claim C10: an ERROR event on a channel-bound descriptor while the
flow-control request is activated saves the watermark register of the
channel cport into the channel, writes 0 to that register (leaving every
other register untouched) and returns the DMA-failure code; it emits no
effect at all (no callback, no operation free, no semaphore post) and
leaves the descriptor fields and queue membership unchanged; when the
request is not activated the event is a complete no-op returning `OK`. -/
theorem error_event_spec (o : DeviceOracle) (op : Nat) (s : HandlerState)
    (ch : dma_channel) (hch : s.desc.channel = some ch) :
    (o.error_req_is_activated = true →
      unipro_dma_tx_callback o evError op s =
        some ({ s with
                  desc := { s.desc with channel := some { ch with saved_tx_water_mark := s.regs ch.cportid } },
                  regs := unipro_write s.regs ch.cportid 0 },
              [], DEVICE_DMA_ERROR_DMA_FAILED)) ∧
    (o.error_req_is_activated = false →
      unipro_dma_tx_callback o evError op s = some (s, [], OK)) ∧
    (unipro_write s.regs ch.cportid 0 ch.cportid = 0) ∧
    (∀ i, i ≠ ch.cportid → unipro_write s.regs ch.cportid 0 i = s.regs i) := by
  refine ⟨handler_error_eq o op s ch hch, handler_error_noop_eq o op s ch hch,
          ?_, ?_⟩
  · simp [unipro_write]
  · intro i hi
    simp [unipro_write, hi]

/-- Claim C10 witness: an ERROR event with the request activated, on a
descriptor bound to a channel mapped to cport 1 with watermark value 7. -/
theorem error_event_spec_witness :
    unipro_dma_tx_callback
      { start_req_is_activated := false, connect_result := 0,
        activate_result := 0, op_free_result := 0,
        error_req_is_activated := true }
      evError 5
      { desc := { cportid := 1, data := 100, len := 4, hasCallback := true,
                  data_offset := 4, channel := some ⟨1, 9⟩, dma_op := some 5 },
        desc_queued := true, desc_freed := false, regs := fun _ => 7 } =
      some ({ desc := { cportid := 1, data := 100, len := 4,
                        hasCallback := true, data_offset := 4,
                        channel := some ⟨1, 7⟩, dma_op := some 5 },
              desc_queued := true, desc_freed := false,
              regs := unipro_write (fun _ => 7) 1 0 },
            [], DEVICE_DMA_ERROR_DMA_FAILED) :=
  (error_event_spec _ 5 _ ⟨1, 9⟩ rfl).1 rfl

/-- `unipro_send_cb` and `unipro_send_dma` (tsb_unipro_tx_dma.c:520-552):
the blocking send stores the status the terminal callback delivers and
returns it once woken; over an effect trace this is the status of the
first caller-callback effect. -/
def unipro_send_dma_result (trace : List Effect) : Option Int :=
  (callback_statuses trace).head?

/-- Claim C6: an ERROR event on a channel whose flow-control request is
activated saves the watermark value `w` of the channel cport and zeroes
the register, and the following RECOVERED event on the same channel writes
the saved value back, so every watermark register ends with its pre-error
value; neither event invokes the caller callback, so a blocking send whose
operation then completes (offset at full length) receives terminal status
0 — the blocking send returns success. -/
theorem error_recovered_restore_spec (o1 o2 o3 : DeviceOracle)
    (op1 op2 op3 : Nat) (s : HandlerState) (ch : dma_channel)
    (hch : s.desc.channel = some ch)
    (hact : o1.error_req_is_activated = true)
    (hlen : s.desc.len ≤ s.desc.data_offset)
    (hcb : s.desc.hasCallback = true) :
    ∀ s1 e1 r1,
      unipro_dma_tx_callback o1 evError op1 s = some (s1, e1, r1) →
    ∀ s2 e2 r2,
      unipro_dma_tx_callback o2 evRecovered op2 s1 = some (s2, e2, r2) →
    ∀ s3 e3 r3,
      unipro_dma_tx_callback o3 evComplete op3 s2 = some (s3, e3, r3) →
      r1 = DEVICE_DMA_ERROR_DMA_FAILED ∧
      s1.regs ch.cportid = 0 ∧
      s1.desc.channel = some { ch with saved_tx_water_mark := s.regs ch.cportid } ∧
      r2 = OK ∧
      (∀ i, s2.regs i = s.regs i) ∧
      callback_statuses e1 = [] ∧
      callback_statuses e2 = [] ∧
      callback_statuses e3 = [0] ∧
      unipro_send_dma_result (e1 ++ e2 ++ e3) = some 0 := by
  intro s1 e1 r1 h1 s2 e2 r2 h2 s3 e3 r3 h3
  rw [handler_error_eq o1 op1 s ch hch hact] at h1
  simp only [Option.some.injEq, Prod.mk.injEq] at h1
  obtain ⟨hs1, he1, hr1⟩ := h1
  subst hs1 he1 hr1
  rw [handler_recovered_eq o2 op2 _
        { ch with saved_tx_water_mark := s.regs ch.cportid } rfl] at h2
  simp only [Option.some.injEq, Prod.mk.injEq] at h2
  obtain ⟨hs2, he2, hr2⟩ := h2
  subst hs2 he2 hr2
  rw [handler_complete_full_eq o3 op3
        { desc := { s.desc with channel := some { ch with saved_tx_water_mark := s.regs ch.cportid } },
          desc_queued := s.desc_queued, desc_freed := s.desc_freed,
          regs := unipro_write (unipro_write s.regs ch.cportid 0) ch.cportid
                    (s.regs ch.cportid) }
        { ch with saved_tx_water_mark := s.regs ch.cportid } rfl hcb hlen]
    at h3
  simp only [Option.some.injEq, Prod.mk.injEq] at h3
  obtain ⟨hs3, he3, hr3⟩ := h3
  subst hs3 he3 hr3
  refine ⟨rfl, ?_, rfl, rfl, ?_, rfl, rfl, ?_, ?_⟩
  · simp [unipro_write]
  · intro i
    by_cases hi : i = ch.cportid <;> simp [unipro_write, hi]
  · simp [callback_statuses]
  · simp [unipro_send_dma_result, callback_statuses]

/-- Claim C6 witness: error-then-recovered-then-complete on cport 1 with
pre-error watermark 7; the blocking-send result over the combined trace is
success. -/
theorem error_recovered_restore_spec_witness :
    unipro_send_dma_result ([] ++ [Effect.atabl_transfer_completed] ++
      [Effect.set_eom 1, Effect.dma_op_free 7, Effect.callback 0 100,
       Effect.atabl_transfer_completed, Effect.sem_post]) = some 0 :=
  (error_recovered_restore_spec
    { start_req_is_activated := false, connect_result := 0,
      activate_result := 0, op_free_result := 0,
      error_req_is_activated := true }
    { start_req_is_activated := false, connect_result := 0,
      activate_result := 0, op_free_result := 0,
      error_req_is_activated := false }
    { start_req_is_activated := false, connect_result := 0,
      activate_result := 0, op_free_result := 0,
      error_req_is_activated := false }
    5 6 7
    { desc := { cportid := 1, data := 100, len := 4, hasCallback := true,
                data_offset := 4, channel := some ⟨1, 9⟩, dma_op := some 7 },
      desc_queued := true, desc_freed := false, regs := fun _ => 7 }
    ⟨1, 9⟩ rfl rfl (by decide) rfl
    _ _ _ rfl _ _ _ rfl _ _ _ rfl).2.2.2.2.2.2.2.2

/-!  ### Transfer submission (`unipro_dma_xfer`) -/

/-- The single scatter-gather entry of the hardware operation built by
`unipro_dma_xfer` (`dma_op->sg[0]`). -/
structure dma_sg where
  len : Nat
  src_addr : Nat
  dst_addr : Nat
deriving DecidableEq

/-- Results of the device calls made by `unipro_dma_xfer`
(`device_dma_op_alloc`, `device_dma_enqueue`); `0` means `OK`. -/
structure XferOracle where
  op_alloc_result : Int
  dma_enqueue_result : Int
deriving DecidableEq

/-- The `DEBUGASSERT(desc->data_offset == 0)` at the top of
`unipro_dma_xfer` (tsb_unipro_tx_dma.c:386). -/
def unipro_dma_xfer_entry_assert (desc : unipro_xfer_descriptor) : Prop :=
  desc.data_offset = 0

instance (desc : unipro_xfer_descriptor) :
    Decidable (unipro_dma_xfer_entry_assert desc) :=
  inferInstanceAs (Decidable (desc.data_offset = 0))

/-- `unipro_dma_xfer` (tsb_unipro_tx_dma.c:377-436): allocate a hardware
operation (failure returns before any mutation), bind the channel to the
descriptor, build the scatter-gather entry with `xfer_len = desc->len`,
advance the source by `data_offset` and the destination by one 64-bit word
when `data_offset != 0`, advance `data_offset` by `xfer_len`, then enqueue
the operation; an enqueue failure clears the channel binding and frees the
operation but does not roll back `data_offset` (or `dma_op`).  `opId` is
the identity of the freshly allocated operation; `cport_tx_buf` is
`desc->cport->tx_buf`.  Returns the updated descriptor, the submitted
scatter-gather entry, the effect trace and the return value. -/
def unipro_dma_xfer (o : XferOracle) (opId : Nat)
    (desc : unipro_xfer_descriptor) (channel : dma_channel)
    (cport_tx_buf : Nat) :
    unipro_xfer_descriptor × Option dma_sg × List Effect × Int :=
  if o.op_alloc_result ≠ OK then (desc, none, [], o.op_alloc_result)
  else
    let xfer_len := desc.len
    let desc1 := { desc with channel := some channel }
    let cport_buf := if desc1.data_offset ≠ 0 then cport_tx_buf + 8
                     else cport_tx_buf
    let xfer_buf := if desc1.data_offset ≠ 0 then
                      desc.data + desc1.data_offset
                    else desc.data
    let sg : dma_sg := { len := xfer_len, src_addr := xfer_buf,
                         dst_addr := cport_buf }
    let desc2 := { desc1 with
                     dma_op := some opId,
                     data_offset := desc1.data_offset + xfer_len }
    if o.dma_enqueue_result ≠ OK then
      ({ desc2 with channel := none }, some sg,
       [Effect.dma_op_free opId], o.dma_enqueue_result)
    else
      (desc2, some sg, [], OK)

/-- Claim C5 (code-bug exhibit): a 4-byte descriptor whose first
submission suffers a `device_dma_enqueue` failure is left queued,
channel-free, with `data_offset` already advanced to 4 — violating the
entry assertion `data_offset == 0` for its automatic retry — and the
retry advances `data_offset` to 8, strictly above the declared length 4,
so `offset ≤ length` does not hold between creation and destruction. -/
theorem offset_exceeds_length_after_failed_enqueue :
    (unipro_dma_xfer { op_alloc_result := 0, dma_enqueue_result := -ENOSPC } 7
       { cportid := 1, data := 1000, len := 4, hasCallback := true,
         data_offset := 0, channel := none, dma_op := none }
       ⟨1, 0⟩ 2000).1.data_offset = 4 ∧
    (unipro_dma_xfer { op_alloc_result := 0, dma_enqueue_result := -ENOSPC } 7
       { cportid := 1, data := 1000, len := 4, hasCallback := true,
         data_offset := 0, channel := none, dma_op := none }
       ⟨1, 0⟩ 2000).1.channel = none ∧
    ¬ unipro_dma_xfer_entry_assert
       (unipro_dma_xfer { op_alloc_result := 0, dma_enqueue_result := -ENOSPC }
          7 { cportid := 1, data := 1000, len := 4, hasCallback := true,
              data_offset := 0, channel := none, dma_op := none }
          ⟨1, 0⟩ 2000).1 ∧
    (unipro_dma_xfer { op_alloc_result := 0, dma_enqueue_result := 0 } 8
       (unipro_dma_xfer { op_alloc_result := 0, dma_enqueue_result := -ENOSPC }
          7 { cportid := 1, data := 1000, len := 4, hasCallback := true,
              data_offset := 0, channel := none, dma_op := none }
          ⟨1, 0⟩ 2000).1
       ⟨1, 0⟩ 2000).1.data_offset = 8 ∧
    (unipro_dma_xfer { op_alloc_result := 0, dma_enqueue_result := 0 } 8
       (unipro_dma_xfer { op_alloc_result := 0, dma_enqueue_result := -ENOSPC }
          7 { cportid := 1, data := 1000, len := 4, hasCallback := true,
              data_offset := 0, channel := none, dma_op := none }
          ⟨1, 0⟩ 2000).1
       ⟨1, 0⟩ 2000).1.len = 4 := by
  decide

/-- Claim C7 (code-bug exhibit): submitting a descriptor with
`data_offset = 4` and `len = 10` builds the scatter-gather entry with
source `data + 4` and destination `tx_buf + 8` as the claim states, but
transfers `xfer_len = len = 10` bytes and advances `data_offset` by the
full length to 14, not by the remaining `len - offset`, so the final
offset differs from the length; the entry assertion `data_offset == 0`
also rejects this resumed-call scenario outright. -/
theorem resume_advances_by_full_length :
    (unipro_dma_xfer { op_alloc_result := 0, dma_enqueue_result := 0 } 9
       { cportid := 1, data := 1000, len := 10, hasCallback := true,
         data_offset := 4, channel := none, dma_op := none }
       ⟨1, 0⟩ 2000).2.1 =
      some { len := 10, src_addr := 1000 + 4, dst_addr := 2000 + 8 } ∧
    (unipro_dma_xfer { op_alloc_result := 0, dma_enqueue_result := 0 } 9
       { cportid := 1, data := 1000, len := 10, hasCallback := true,
         data_offset := 4, channel := none, dma_op := none }
       ⟨1, 0⟩ 2000).1.data_offset = 14 ∧
    (unipro_dma_xfer { op_alloc_result := 0, dma_enqueue_result := 0 } 9
       { cportid := 1, data := 1000, len := 10, hasCallback := true,
         data_offset := 4, channel := none, dma_op := none }
       ⟨1, 0⟩ 2000).1.len = 10 ∧
    ¬ unipro_dma_xfer_entry_assert
       { cportid := 1, data := 1000, len := 10, hasCallback := true,
         data_offset := 4, channel := none, dma_op := none } := by
  decide

/-!  ### Initialization (`unipro_tx_init_dma`) -/

/-- Environment of one `unipro_tx_init_dma` run: whether the DMA and ATABL
devices open, the free hardware DMA channel count, the free flow-control
request count, per-index success of the request and channel allocations,
and the `pthread_create` result. -/
structure InitEnv where
  dma_dev_ok : Bool
  atabl_dev_ok : Bool
  dma_chan_free_count : Nat
  atabl_req_free_count : Nat
  req_alloc_ok : Nat → Bool
  chan_alloc_ok : Nat → Bool
  pthread_create_result : Int

/-- Observable outcome of `unipro_tx_init_dma`: return value, whether the
worker thread was left running, whether the operations table was handed
back through `*table`, and the final `unipro_dma.max_channel`. -/
structure InitResult where
  retval : Int
  worker_started : Bool
  table_returned : Bool
  max_channel : Nat
deriving DecidableEq

/-- Length of the successful prefix of the allocation loop
(tsb_unipro_tx_dma.c:622-655): the loop breaks at the first index where
the request allocation or the channel allocation fails. -/
def alloc_channel_count (ok : Nat → Bool) : Nat → Nat → Nat
  | _, 0 => 0
  | i, n + 1 => if ok i then 1 + alloc_channel_count ok (i + 1) n else 0

/-- `avail_chan` as computed at tsb_unipro_tx_dma.c:606-610: the free DMA
channel count clamped to the static pool capacity
(`CONFIG_ARCH_UNIPROTX_DMA_NUM_CHANNELS`, a build-time parameter). -/
def init_avail_chan (pool_cap : Nat) (env : InitEnv) : Nat :=
  if pool_cap < env.dma_chan_free_count then pool_cap
  else env.dma_chan_free_count

/-- The `DEBUGASSERT(avail_chan > 1)` at tsb_unipro_tx_dma.c:612. -/
def init_debug_assert (pool_cap : Nat) (env : InitEnv) : Prop :=
  1 < init_avail_chan pool_cap env

instance (pool_cap : Nat) (env : InitEnv) :
    Decidable (init_debug_assert pool_cap env) :=
  inferInstanceAs (Decidable (1 < init_avail_chan pool_cap env))

/-- `unipro_tx_init_dma` (tsb_unipro_tx_dma.c:560-694): open the DMA and
ATABL devices (each failure returns `-ENODEV`), clamp the available
channel count to the pool capacity, fail with `-ENODEV` when the free
flow-control request count is below that, allocate request/channel pairs
until the first failure, fail with `-ENODEV` only when no channel at all
was allocated, start the worker thread (a failure tears down and returns
its error), and otherwise return the operations table and 0. -/
def unipro_tx_init_dma (pool_cap : Nat) (env : InitEnv) : InitResult :=
  if env.dma_dev_ok = false then
    { retval := -ENODEV, worker_started := false, table_returned := false,
      max_channel := 0 }
  else if env.atabl_dev_ok = false then
    { retval := -ENODEV, worker_started := false, table_returned := false,
      max_channel := 0 }
  else
    let avail := init_avail_chan pool_cap env
    if env.atabl_req_free_count < avail then
      { retval := -ENODEV, worker_started := false, table_returned := false,
        max_channel := 0 }
    else
      let mc := alloc_channel_count
        (fun i => env.req_alloc_ok i && env.chan_alloc_ok i) 0 avail
      if mc = 0 then
        { retval := -ENODEV, worker_started := false,
          table_returned := false, max_channel := 0 }
      else if env.pthread_create_result ≠ OK then
        { retval := env.pthread_create_result, worker_started := false,
          table_returned := false, max_channel := 0 }
      else
        { retval := 0, worker_started := true, table_returned := true,
          max_channel := mc }

/-- Claim C9 (code-bug exhibit): with both devices present, exactly one
free hardware DMA channel, one free flow-control request and all
allocations succeeding, `unipro_tx_init_dma` returns 0, starts the worker
and returns the operations table with a single channel — although fewer
than 2 channels are available, the code-side `DEBUGASSERT(avail_chan > 1)`
is violated, and no error is reported. -/
theorem init_succeeds_with_one_channel :
    unipro_tx_init_dma 8
      { dma_dev_ok := true, atabl_dev_ok := true, dma_chan_free_count := 1,
        atabl_req_free_count := 1, req_alloc_ok := fun _ => true,
        chan_alloc_ok := fun _ => true, pthread_create_result := 0 } =
      { retval := 0, worker_started := true, table_returned := true,
        max_channel := 1 } ∧
    ¬ init_debug_assert 8
      { dma_dev_ok := true, atabl_dev_ok := true, dma_chan_free_count := 1,
        atabl_req_free_count := 1, req_alloc_ok := fun _ => true,
        chan_alloc_ok := fun _ => true, pthread_create_result := 0 } := by
  constructor
  · rfl
  · decide

/-!  ### Per-endpoint FIFO ordering

A small transition system over one endpoint (cport) abstracts exactly the
queue manipulations the source performs on `cport->tx_fifo`: a successful
`unipro_send_async_dma` appends a fresh, unbound descriptor at the tail
(tsb_unipro_tx_dma.c:512, `list_add` appends before the list head); the
worker dispatches only the descriptor `pick_tx_descriptor` returns, which
is the queue head (`cport->tx_fifo.next`, line 206) and only when it has
no channel (line 208), and `unipro_dma_xfer` then binds the channel (line
395); a COMPLETE event on the bound descriptor either removes it and
fires its terminal callback (lines 286-293) or clears its binding (line
300).  Descriptors are tagged with their submission sequence number and
the trace of terminal-callback tags is accumulated in firing order. -/

/-- One queued send: its submission sequence number and whether it is
bound to a channel. -/
structure QItem where
  sendIdx : Nat
  bound : Bool
deriving DecidableEq

/-- One endpoint: its descriptor queue (head first), the next submission
sequence number, and the trace of terminal-callback sequence numbers in
firing order. -/
structure EpState where
  tx_fifo : List QItem
  nextIdx : Nat
  callbacks : List Nat
deriving DecidableEq

/-- The queue transitions of the source restricted to one endpoint. -/
inductive EpStep : EpState → EpState → Prop where
  | send (s : EpState) :
      EpStep s
        { tx_fifo := s.tx_fifo ++ [{ sendIdx := s.nextIdx, bound := false }],
          nextIdx := s.nextIdx + 1,
          callbacks := s.callbacks }
  | dispatch (s : EpState) (d : QItem) (rest : List QItem) :
      s.tx_fifo = d :: rest → d.bound = false →
      EpStep s { s with tx_fifo := { d with bound := true } :: rest }
  | complete_full (s : EpState) (front back : List QItem) (d : QItem) :
      s.tx_fifo = front ++ d :: back → d.bound = true →
      EpStep s
        { s with
            tx_fifo := front ++ back,
            callbacks := s.callbacks ++ [d.sendIdx] }
  | complete_partial (s : EpState) (front back : List QItem) (d : QItem) :
      s.tx_fifo = front ++ d :: back → d.bound = true →
      EpStep s { s with tx_fifo := front ++ { d with bound := false } :: back }

/-- States reachable from an endpoint with an empty queue and no history. -/
inductive EpReachable : EpState → Prop where
  | base : EpReachable { tx_fifo := [], nextIdx := 0, callbacks := [] }
  | step {s t : EpState} : EpReachable s → EpStep s t → EpReachable t

/-- The inductive invariant: the callbacks already fired followed by the
still-queued submission numbers are exactly `0, 1, ..., nextIdx - 1` in
order, and no descriptor after the queue head is channel-bound. -/
def EpInv (s : EpState) : Prop :=
  s.callbacks ++ s.tx_fifo.map QItem.sendIdx = List.range s.nextIdx ∧
  ∀ d ∈ s.tx_fifo.tail, d.bound = false

theorem EpInv_base : EpInv { tx_fifo := [], nextIdx := 0, callbacks := [] } := by
  constructor
  · simp
  · intro d hd
    simp at hd

/-- A channel-bound descriptor is the queue head: with the invariant, a
decomposition `front ++ d :: back` with `d` bound forces `front = []`. -/
theorem bound_is_head (s : EpState) (hinv : EpInv s)
    (front back : List QItem) (d : QItem)
    (hsplit : s.tx_fifo = front ++ d :: back) (hb : d.bound = true) :
    front = [] := by
  cases front with
  | nil => rfl
  | cons x xs =>
    exfalso
    have hmem : d ∈ s.tx_fifo.tail := by
      rw [hsplit]
      simp
    have := hinv.2 d hmem
    rw [this] at hb
    exact Bool.false_ne_true hb

theorem EpInv_step {s t : EpState} (hinv : EpInv s) (hstep : EpStep s t) :
    EpInv t := by
  cases hstep with
  | send =>
    obtain ⟨h1, h2⟩ := hinv
    constructor
    · simp only [List.map_append, List.map_cons, List.map_nil]
      rw [← List.append_assoc, h1, List.range_succ]
    · intro d hd
      cases hfifo : s.tx_fifo with
      | nil =>
        simp [hfifo] at hd
      | cons x xs =>
        simp only [hfifo, List.cons_append, List.tail_cons] at hd
        rcases List.mem_append.mp hd with hl | hr
        · exact h2 d (by simp [hfifo, hl])
        · simp at hr
          rw [hr]
  | dispatch d rest hsplit hb =>
    obtain ⟨h1, h2⟩ := hinv
    constructor
    · simpa [hsplit] using h1
    · intro x hx
      exact h2 x (by simp [hsplit]; simpa using hx)
  | complete_full front back d hsplit hb =>
    obtain ⟨h1, h2⟩ := hinv
    have hfront : front = [] := bound_is_head s ⟨h1, h2⟩ front back d hsplit hb
    subst hfront
    simp only [List.nil_append] at hsplit
    constructor
    · simpa [hsplit] using h1
    · intro x hx
      simp only [List.nil_append] at hx
      cases hback : back with
      | nil =>
        rw [hback] at hx
        simp at hx
      | cons y ys =>
        rw [hback] at hx
        simp only [List.tail_cons] at hx
        have : x ∈ (d :: back).tail := by
          rw [hback]
          simp
          right
          simpa using hx
        exact h2 x (by rw [hsplit, hback]; simpa [hback] using this)
  | complete_partial front back d hsplit hb =>
    obtain ⟨h1, h2⟩ := hinv
    have hfront : front = [] := bound_is_head s ⟨h1, h2⟩ front back d hsplit hb
    subst hfront
    simp only [List.nil_append] at hsplit
    constructor
    · simpa [hsplit] using h1
    · intro x hx
      simp only [List.nil_append, List.tail_cons] at hx
      exact h2 x (by rw [hsplit]; simpa using hx)

theorem EpInv_reachable (s : EpState) (h : EpReachable s) : EpInv s := by
  induction h with
  | base => exact EpInv_base
  | step _ hstep ih => exact EpInv_step ih hstep

/-- Claim C1: in every reachable endpoint state, the terminal callbacks
fired so far are exactly the first sends in submission order — callbacks
fire FIFO per endpoint.  Enqueue appends at the tail, only the queue head
is ever dispatched, and only the (unique) bound descriptor completes, so
the trace of fired callback tags is an initial segment of the submission
sequence. -/
theorem async_send_fifo (s : EpState) (h : EpReachable s) :
    s.callbacks = List.range s.callbacks.length := by
  obtain ⟨h1, -⟩ := EpInv_reachable s h
  have hlen : s.callbacks.length ≤ s.nextIdx := by
    have := congrArg List.length h1
    simp at this
    omega
  calc s.callbacks
      = (s.callbacks ++ s.tx_fifo.map QItem.sendIdx).take s.callbacks.length :=
        (List.take_left _ _).symm
    _ = (List.range s.nextIdx).take s.callbacks.length := by rw [h1]
    _ = List.range s.callbacks.length := by
        rw [List.take_range]
        exact congrArg List.range (Nat.min_eq_left hlen)

/-- Claim C1 witness: two sends followed by dispatch-complete,
dispatch-complete; the callback trace `[0, 1]` is the submission order. -/
theorem async_send_fifo_witness :
    ([0, 1] : List Nat) = List.range (List.length ([0, 1] : List Nat)) := by
  have h1 : EpReachable { tx_fifo := [], nextIdx := 0, callbacks := [] } :=
    EpReachable.base
  have h2 := EpReachable.step h1 (EpStep.send _)
  have h3 := EpReachable.step h2 (EpStep.send _)
  have h4 := EpReachable.step h3
    (EpStep.dispatch _ { sendIdx := 0, bound := false }
      [{ sendIdx := 1, bound := false }] (by decide) (by decide))
  have h5 := EpReachable.step h4
    (EpStep.complete_full _ [] [{ sendIdx := 1, bound := false }]
      { sendIdx := 0, bound := true } (by decide) (by decide))
  have h6 := EpReachable.step h5
    (EpStep.dispatch _ { sendIdx := 1, bound := false } [] (by decide)
      (by decide))
  have h7 := EpReachable.step h6
    (EpStep.complete_full _ [] [] { sendIdx := 1, bound := true } (by decide)
      (by decide))
  exact async_send_fifo _ h7

end UniproTxDma
